import Mathlib

/-!
# Verification of RAMSIS (ATLS-core) core components

Shallow embedding of the status-aggregation, snapshot, data-source,
simulator, worker-wait, controller-connect and SFM-serializer logic of the
RT-RAMSIS application (`src/RAMSIS`), together with theorems settling the
frozen specification claims.

Numeric time quantities are modelled exactly over `ℚ`; the Python source
computes them with ordinary arithmetic on numbers.
-/

set_option autoImplicit false

namespace RAMSIS

/-! ## Data model: statuses (`ramsis.datamodel.status.EStatus`) -/

/-- `EStatus` from the external data-model package, as used by the
state handlers: INITIALIZED, PENDING, RUNNING, DISPATCHED, COMPLETE, ERROR. -/
inductive EStatus
  | INITIALIZED
  | PENDING
  | RUNNING
  | DISPATCHED
  | COMPLETE
  | ERROR
  deriving DecidableEq, Repr

/-- A seismicity model run as seen by `scenario_stage_status`:
its `enabled` flag and its `status.state`. -/
structure ModelRun where
  enabled : Bool
  state : EStatus
  deriving DecidableEq, Repr

/-- A stage as seen by `scenario_stage_status`: `enabled` flag,
`status.state` and its list of model runs. -/
structure Stage where
  enabled : Bool
  state : EStatus
  runs : List ModelRun
  deriving DecidableEq, Repr

/-- A scenario as seen by `ForecastHandler.scenario_stage_status`.
`scenario[EStage.SEISMICITY]` returns the distinguished seismicity stage
object, which is also a member of `scenario.stages`; we keep it explicit
and let `otherStages` hold the remaining stage objects. -/
structure Scenario where
  state : EStatus
  seismicityStage : Stage
  otherStages : List Stage
  deriving DecidableEq, Repr

/-- `scenario.stages`: the stage objects of the scenario (the seismicity
stage among them). -/
def Scenario.stages (sc : Scenario) : List Stage :=
  sc.seismicityStage :: sc.otherStages

/-! ## `ForecastHandler.scenario_stage_status`
(`src/RAMSIS/core/engine/state_handlers.py`, lines 138-166) -/

/-- `ForecastHandler.scenario_stage_status(scenario)`: sets the seismicity
stage's status from its enabled runs, then sets the scenario's status from
the (updated) enabled stages; in the fall-through case the scenario's
status is left unchanged. -/
def scenario_stage_status (sc : Scenario) : Scenario :=
  let stage := sc.seismicityStage
  -- model_success = all enabled runs have status COMPLETE
  let model_success :=
    (stage.runs.filter (·.enabled)).all (fun r => r.state == EStatus.COMPLETE)
  let stage' : Stage :=
    { stage with state := if model_success then EStatus.COMPLETE else EStatus.ERROR }
  let sc' : Scenario := { sc with seismicityStage := stage' }
  -- stage_states = states of the enabled stages (read after the stage update)
  let stage_states := (sc'.stages.filter (·.enabled)).map (·.state)
  let newState :=
    if stage_states.all (fun st => st == EStatus.COMPLETE) then EStatus.COMPLETE
    else if stage_states.any (fun st => st == EStatus.ERROR) then EStatus.ERROR
    else if stage_states.any (fun st => st == EStatus.PENDING) then EStatus.RUNNING
    else sc'.state
  { sc' with state := newState }

/-- The enabled model runs of a stage. -/
def Stage.enabledRuns (st : Stage) : List ModelRun :=
  st.runs.filter (·.enabled)

/-- The enabled stages of a scenario. -/
def Scenario.enabledStages (sc : Scenario) : List Stage :=
  sc.stages.filter (·.enabled)

/-- A concrete scenario exercising `scenario_stage_status`: one enabled and
COMPLETE run under the seismicity stage, and a second enabled stage still
PENDING. -/
def exScenario : Scenario :=
  { state := EStatus.RUNNING
    seismicityStage :=
      { enabled := true, state := EStatus.PENDING
        runs := [{ enabled := true, state := EStatus.COMPLETE }] }
    otherStages := [{ enabled := true, state := EStatus.PENDING, runs := [] }] }


/-- A scenario with no enabled model runs and no enabled stages at all. -/
def exEmptyScenario : Scenario :=
  { state := EStatus.PENDING
    seismicityStage :=
      { enabled := false, state := EStatus.PENDING
        runs := [{ enabled := false, state := EStatus.ERROR }] }
    otherStages := [] }

/-! ## Simulator (`src/RAMSIS/core/simulator.py`)

Mutable state of `Simulator`; times and speeds are modelled over `ℚ`.
`handlerCalls` records the argument of every `self._handler(...)` call;
`timerActive`/`signalConnected` model the internal `QTimer` and the
external-signal connection; `pendingImmediateStep` models the queued
`QTimer.singleShot(0, ...)` in external mode.  The UI `state_changed`
signal carries no state and is not modelled.  Methods that can raise
(`start`'s assert, a tick with missing configuration) return `Option`. -/

/-- `SimulatorState`: STOPPED, RUNNING, PAUSED. -/
inductive SimulatorState
  | STOPPED
  | RUNNING
  | PAUSED
  deriving DecidableEq, Repr

/-- The `Simulator` object state. `__init__` sets
`simulation_interval = 200`, `speed = 1000`, `simulation_time = 0`,
`time_range = None`, state STOPPED, `external_signal = None`, `dt = None`. -/
structure Simulator where
  simulation_interval : ℚ
  speed : ℚ
  simulation_time : ℚ
  time_range : Option (ℚ × ℚ)
  state : SimulatorState
  timerActive : Bool
  external_signal : Bool
  signalConnected : Bool
  pendingImmediateStep : Bool
  dt : Option ℚ
  handlerCalls : List ℚ
  deriving Repr

/-- `Simulator.__init__` (with a fresh handler; no ticks have happened). -/
def Simulator.init : Simulator :=
  { simulation_interval := 200
    speed := 1000
    simulation_time := 0
    time_range := none
    state := SimulatorState.STOPPED
    timerActive := false
    external_signal := false
    signalConnected := false
    pendingImmediateStep := false
    dt := none
    handlerCalls := [] }

/-- `Simulator.configure(time_range, speed=1000, step_on=None, dt=None)`. -/
def Simulator.configure (s : Simulator) (time_range : ℚ × ℚ)
    (speed : ℚ := 1000) (step_on : Bool := false) (dt : Option ℚ := none) :
    Simulator :=
  { s with
    speed := speed
    time_range := some time_range
    external_signal := step_on
    dt := dt }

/-- `Simulator.stop()`: stop the timer (internal mode) or disconnect the
external signal, then transition to STOPPED. -/
def Simulator.stop (s : Simulator) : Simulator :=
  let s1 := if s.external_signal then { s with signalConnected := false }
            else { s with timerActive := false }
  { s1 with state := SimulatorState.STOPPED }

/-- `Simulator.pause()`: stop the timer in internal mode (the external
signal stays connected), then transition to PAUSED. -/
def Simulator.pause (s : Simulator) : Simulator :=
  let s1 := if s.external_signal then s else { s with timerActive := false }
  { s1 with state := SimulatorState.PAUSED }

/-- `Simulator.start()`: requires a configured time range (assert);
resets `simulation_time` to the window start unless resuming from PAUSED;
transitions to RUNNING; then connects the external signal and queues an
immediate step, or arms the internal timer. -/
def Simulator.start (s : Simulator) : Option Simulator :=
  match s.time_range with
  | none => none
  | some tr =>
    let s1 := if s.state ≠ SimulatorState.PAUSED
              then { s with simulation_time := tr.1 } else s
    let s2 := { s1 with state := SimulatorState.RUNNING }
    some (if s.external_signal
          then { s2 with signalConnected := true, pendingImmediateStep := true }
          else { s2 with timerActive := true })

/-- `Simulator._simulate_time_step()`: ignore the tick unless RUNNING;
advance `simulation_time` by `simulation_interval / 1000 * speed` seconds
(internal mode) or by `dt` (external mode); deliver the tick to the
handler; auto-stop if the new time has reached or passed the window end.
`none` models the uncaught exception when `dt` (external mode) or
`time_range` is unset. -/
def Simulator.simulate_time_step (s : Simulator) : Option Simulator :=
  if s.state ≠ SimulatorState.RUNNING then some s else
  let dtOpt := if s.external_signal then s.dt
               else some (s.simulation_interval / 1000 * s.speed)
  match dtOpt, s.time_range with
  | some dt, some tr =>
    let t := s.simulation_time + dt
    let s' := { s with
                simulation_time := t
                handlerCalls := s.handlerCalls ++ [t] }
    some (if tr.2 ≤ t then s'.stop else s')
  | _, _ => none

/-- `N` consecutive timer ticks. -/
def Simulator.tickN : ℕ → Simulator → Option Simulator
  | 0, s => some s
  | n + 1, s => (s.simulate_time_step).bind (Simulator.tickN n)


/-- A freshly configured simulator (window `(0, 1)`, speed 1) that is
RUNNING with the internal timer armed. -/
def exSimRunning : Simulator :=
  { Simulator.init with
    speed := 1
    time_range := some (0, 1)
    state := SimulatorState.RUNNING
    timerActive := true }

/-! ## `Worker.run` (`src/RAMSIS/core/engine/state_handlers.py`, lines 24-50)

`time()`/`sleep(1)` are modelled on an idealized clock: each `sleep(1)`
advances the clock by exactly one second and every other operation takes no
time, so after `k` sleeps `time() = t0 + k`.  `isReserved k` is the value
returned by the `k`-th call to `synchronous_thread.is_reserved()` (the
call before the `k`-th sleep). -/

/-- Outcome of the reservation wait loop, with the number of completed
one-second sleep iterations. -/
inductive WaitOutcome
  | timedOut (sleeps : ℕ)
  | free (sleeps : ℕ)
  deriving DecidableEq, Repr

/-- Sleep count of a wait outcome. -/
def WaitOutcome.sleeps : WaitOutcome → ℕ
  | .timedOut n => n
  | .free n => n

/-- The wait loop
`while synchronous_thread.is_reserved(): sleep(1); if time() > timeout: raise TimeoutError`.
`k` counts completed sleeps, so `time() = t0 + k`; `r` is the remaining
budget `(t0 + self.timeout) - time()`, so the post-sleep guard
`time() > timeout` fires exactly when `r = 0` on entry.  The initial call
is `workerWait isReserved 0 self.timeout`. -/
def workerWait (isReserved : ℕ → Bool) : ℕ → ℕ → WaitOutcome
  | k, r =>
    if isReserved k then
      match r with
      | 0 => WaitOutcome.timedOut (k + 1)
      | r' + 1 => workerWait isReserved (k + 1) r'
    else WaitOutcome.free k

/-- `self.timeout = 1000`, set in `Worker.__init__`. -/
def workerTimeout : ℕ := 1000

/-- Observable side effects of `Worker.run` after the wait. -/
inductive WorkerEvent
  | reserve
  | callback
  | release
  deriving DecidableEq, Repr

/-- `Worker.run`: with a `synchronous_thread` token, wait, then
reserve-run-release; the error case carries the sleep count at the raised
`TimeoutError`.  Without a token, the callback runs directly. -/
def workerRun (sync : Option (ℕ → Bool)) : Except ℕ (List WorkerEvent) :=
  match sync with
  | none => Except.ok [WorkerEvent.callback]
  | some isReserved =>
    match workerWait isReserved 0 workerTimeout with
    | WaitOutcome.timedOut n => Except.error n
    | WaitOutcome.free _ =>
        Except.ok [WorkerEvent.reserve, WorkerEvent.callback, WorkerEvent.release]

/-! ## Web-service data sources (`src/RAMSIS/core/datasources.py`)

`FDSNWSDataSource` and `HYDWSDataSource` share the same `fetch`/`run`
shape.  The Python attribute namespace of an instance is modelled
explicitly: attributes that `__init__` may leave unassigned are `Option`s
(`none` = reading them raises `AttributeError`).  Both `run` methods open
with `self.logger.debug(f"... url={self._url} ... params={self._params}")`
although neither class ever assigns `_url` or `_params`; the f-string is
evaluated before `logger.debug` is invoked and before the `try` block.
The outcome of the guarded `binary_request` + deserializer block is a
parameter (`FetchOutcome`), since it depends on the network. -/

/-- Instance attributes of a data source relevant to `fetch`/`run`. -/
structure DataSourceState where
  url : String
  args : List (String × String)
  enabled : Bool
  /-- `self._timeout`: `some v` if assigned (Python `None` ↦ `some none`). -/
  timeout_attr : Option (Option ℕ)
  /-- `self._url`: never assigned by either `__init__`. -/
  url_attr : Option String
  /-- `self._params`: never assigned by either `__init__`. -/
  params_attr : Option String
  deriving DecidableEq, Repr

/-- `FDSNWSDataSource.__init__(url, timeout=None, proj=None)`:
sets `url`, `_timeout = None`, `_args = {}`, `enabled = False`. -/
def FDSNWSDataSource_init (url : String) : DataSourceState :=
  { url := url, args := [], enabled := false
    timeout_attr := some none, url_attr := none, params_attr := none }

/-- `HYDWSDataSource.__init__(url, timeout=None, proj=None)`:
sets `url`, `_args = {}`, `enabled = False`; note it never assigns
`self._timeout` either. -/
def HYDWSDataSource_init (url : String) : DataSourceState :=
  { url := url, args := [], enabled := false
    timeout_attr := none, url_attr := none, params_attr := none }

/-- Result of the `binary_request` + `self._deserializer.load` block. -/
inductive FetchOutcome
  | success
  | noContent
  | requestsError
  | deserializeError
  deriving DecidableEq, Repr

/-- Observable events of a background run; `emit p` is
`self.data_received.emit(p)` where `p = none` models Python `None`. -/
inductive RunEvent
  | emit (payload : Option Unit)
  deriving DecidableEq, Repr

/-- How `run()` terminates. -/
inductive RunResult
  | attributeError (attr : String)
  | finished
  deriving DecidableEq, Repr

/-- `FDSNWSDataSource.run` / `HYDWSDataSource.run`: evaluate the debug
f-string (reads `self._url` then `self._params`), then inside `try` read
`self._timeout` and perform the request/deserialization; `NoContent`,
request and deserialization errors are caught and leave the payload
`None`; finally emit `data_received` once.  An `AttributeError` is not
caught anywhere in `run`. -/
def dataSource_run (s : DataSourceState) (world : FetchOutcome) :
    RunResult × List RunEvent :=
  match s.url_attr with
  | none => (RunResult.attributeError "_url", [])
  | some _ =>
    match s.params_attr with
    | none => (RunResult.attributeError "_params", [])
    | some _ =>
      match s.timeout_attr with
      | none => (RunResult.attributeError "_timeout", [])
      | some _ =>
        let payload : Option Unit :=
          match world with
          | FetchOutcome.success => some ()
          | _ => none
        (RunResult.finished, [RunEvent.emit payload])

/-- Result of a `fetch(**kwargs)` call: the updated instance state,
whether the background thread was started, the events the background run
produced, and how it terminated (if it ran at all). -/
structure FetchResult where
  state : DataSourceState
  threadStarted : Bool
  events : List RunEvent
  runResult : Option RunResult
  deriving DecidableEq, Repr

/-- `fetch(**kwargs)`: store the query arguments in `self._args`; if
`self.enabled`, start the background thread (which executes `run`). -/
def dataSource_fetch (s : DataSourceState) (kwargs : List (String × String))
    (world : FetchOutcome) : FetchResult :=
  let s' := { s with args := kwargs }
  if s'.enabled then
    let res := dataSource_run s' world
    { state := s', threadStarted := true, events := res.2,
      runResult := some res.1 }
  else
    { state := s', threadStarted := false, events := [], runResult := none }

/-! ## `Controller.connect` / `Controller.disconnect`
(`src/RAMSIS/core/controller.py`, lines 103-128; `Store.test_connection`,
`src/RAMSIS/core/store.py`, lines 140-147)

A `Store` is identified by its `db_url`; `Store.test_connection` depends
on the database environment, modelled as a predicate `connectable`. -/

/-- Controller state relevant to connect/disconnect: the connected store,
the open project, and counters for the emitted Qt signals. -/
structure ControllerState where
  store : Option String
  project : Option String
  storeChangedEmits : ℕ
  projectClosedEmits : ℕ
  deriving DecidableEq, Repr

/-- `Controller.close_project()`: close the project, clear it, emit
`project_closed`. -/
def ControllerState.close_project (c : ControllerState) : ControllerState :=
  { c with project := none, projectClosedEmits := c.projectClosedEmits + 1 }

/-- `Controller.disconnect()`: close any open project, then close and drop
the store (emitting `store_changed`). -/
def ControllerState.disconnect (c : ControllerState) : ControllerState :=
  let c1 := if c.project.isSome then c.close_project else c
  if c1.store.isSome then
    { c1 with store := none, storeChangedEmits := c1.storeChangedEmits + 1 }
  else c1

/-- `Controller.connect(db_url)`: disconnect first, build `Store(db_url)`,
keep it only if `test_connection()` succeeds; return the success flag. -/
def ControllerState.connect (connectable : String → Bool)
    (c : ControllerState) (db_url : String) : ControllerState × Bool :=
  let c1 := c.disconnect
  if connectable db_url then
    ({ c1 with
       store := some db_url
       storeChangedEmits := c1.storeChangedEmits + 1 }, true)
  else (c1, false)

/-! ## Snapshot writers `ForecastHandler.add_catalog` / `add_well`
(`src/RAMSIS/core/engine/state_handlers.py`, lines 325-341 and 359-378)

Snapshot objects are identified by ids; the attached session is the list
of object ids it contains.  `add_catalog` asserts the forecast has exactly
one catalog snapshot and writes it only when it is not already in the
session.  `add_well` asserts the forecast has exactly one well snapshot,
but its no-op test reads `forecast.seismiccatalog[0]`, not the well. -/

/-- The forecast result object delivered to the snapshot writers:
its `seismiccatalog` and `well` snapshot lists (object ids). -/
structure SnapshotForecast where
  id : ℕ
  seismiccatalog : List ℕ
  well : List ℕ
  deriving DecidableEq, Repr

/-- Uncaught Python exceptions of the snapshot writers. -/
inductive PyError
  | assertionError
  | indexError
  deriving DecidableEq, Repr

/-- What a snapshot writer did. -/
inductive SnapshotAction
  | wrote
  | skipped
  deriving DecidableEq, Repr

/-- `ForecastHandler.add_catalog`: assert exactly one catalog snapshot;
add it to the session (and merge the forecast) unless it is already
there. Returns the action and the resulting session contents. -/
def add_catalog (sess : List ℕ) (f : SnapshotForecast) :
    Except PyError (SnapshotAction × List ℕ) :=
  match f.seismiccatalog with
  | [c] =>
    if c ∉ sess then Except.ok (SnapshotAction.wrote, sess ++ [c])
    else Except.ok (SnapshotAction.skipped, sess)
  | _ => Except.error PyError.assertionError

/-- `ForecastHandler.add_well`: assert exactly one well snapshot; then
test `forecast.seismiccatalog[0] not in self.session()` (sic — the
catalog snapshot, not the well) and add `forecast.well[0]` when that test
passes. Reading `seismiccatalog[0]` raises `IndexError` when the forecast
has no catalog snapshot. -/
def add_well (sess : List ℕ) (f : SnapshotForecast) :
    Except PyError (SnapshotAction × List ℕ) :=
  match f.well with
  | [w] =>
    match f.seismiccatalog.head? with
    | none => Except.error PyError.indexError
    | some c =>
      if c ∉ sess then Except.ok (SnapshotAction.wrote, sess ++ [w])
      else Except.ok (SnapshotAction.skipped, sess)
  | _ => Except.error PyError.assertionError

/-! ## `SFMWorkerIMessageSerializer.__init__`
(`src/RAMSIS/io/sfm.py`, lines 151-183)

`self._proj = kwargs.get('proj')`; construction raises
`SFMWIOError("Missing SRS (PROJ4) projection.")` whenever `self._proj` is
falsy (absent, `None`, or the empty string). -/

/-- `SFMWorkerIMessageSerializer(**kwargs)` construction: returns the
stored projection on success, the `SFMWIOError` message otherwise. -/
def SFMWorkerIMessageSerializer_init (proj : Option String) :
    Except String String :=
  match proj with
  | none => Except.error "Missing SRS (PROJ4) projection."
  | some p =>
    if p = "" then Except.error "Missing SRS (PROJ4) projection."
    else Except.ok p

/-! ## Theorems -/

lemma scenario_stage_status_seismicityStage (sc : Scenario) :
    (scenario_stage_status sc).seismicityStage =
      { sc.seismicityStage with
        state :=
          if sc.seismicityStage.enabledRuns.all
              (fun r => r.state == EStatus.COMPLETE)
          then EStatus.COMPLETE else EStatus.ERROR } := rfl

lemma scenario_stage_status_otherStages (sc : Scenario) :
    (scenario_stage_status sc).otherStages = sc.otherStages := rfl

lemma scenario_stage_status_state (sc : Scenario) :
    (scenario_stage_status sc).state =
      (let stage_states := ((scenario_stage_status sc).enabledStages).map (·.state)
       if stage_states.all (fun st => st == EStatus.COMPLETE) then EStatus.COMPLETE
       else if stage_states.any (fun st => st == EStatus.ERROR) then EStatus.ERROR
       else if stage_states.any (fun st => st == EStatus.PENDING) then EStatus.RUNNING
       else sc.state) := rfl

lemma stage_complete_iff (sc : Scenario) :
    (scenario_stage_status sc).seismicityStage.state = EStatus.COMPLETE ↔
      ∀ r ∈ sc.seismicityStage.enabledRuns, r.state = EStatus.COMPLETE := by
  rw [scenario_stage_status_seismicityStage]
  by_cases h :
      (sc.seismicityStage.enabledRuns.all (fun r => r.state == EStatus.COMPLETE)) = true
  · simp only [h, if_true]
    simp only [List.all_eq_true, beq_iff_eq] at h
    simpa using h
  · simp only [h, if_false]
    simp only [List.all_eq_true, beq_iff_eq] at h
    simpa using h

lemma stage_error_iff (sc : Scenario) :
    (scenario_stage_status sc).seismicityStage.state = EStatus.ERROR ↔
      ¬ ∀ r ∈ sc.seismicityStage.enabledRuns, r.state = EStatus.COMPLETE := by
  rw [scenario_stage_status_seismicityStage]
  by_cases h :
      (sc.seismicityStage.enabledRuns.all (fun r => r.state == EStatus.COMPLETE)) = true
  · simp only [h, if_true]
    simp only [List.all_eq_true, beq_iff_eq] at h
    simpa using h
  · simp only [h, if_false]
    simp only [List.all_eq_true, beq_iff_eq] at h
    simpa using h

lemma scen_complete (sc : Scenario)
    (h : ∀ st ∈ (scenario_stage_status sc).enabledStages,
      st.state = EStatus.COMPLETE) :
    (scenario_stage_status sc).state = EStatus.COMPLETE := by
  rw [scenario_stage_status_state]
  have hall : (((scenario_stage_status sc).enabledStages).map (·.state)).all
      (fun st => st == EStatus.COMPLETE) = true := by
    simp only [List.all_eq_true, List.mem_map, beq_iff_eq]
    rintro s ⟨st, hst, rfl⟩
    exact h st hst
  simp only [hall, if_true]

lemma scen_error (sc : Scenario)
    (h : ∃ st ∈ (scenario_stage_status sc).enabledStages,
      st.state = EStatus.ERROR) :
    (scenario_stage_status sc).state = EStatus.ERROR := by
  rw [scenario_stage_status_state]
  obtain ⟨st, hst, herr⟩ := h
  have hnall : (((scenario_stage_status sc).enabledStages).map (·.state)).all
      (fun st => st == EStatus.COMPLETE) = false := by
    simp only [List.all_eq_false, List.mem_map, beq_iff_eq]
    exact ⟨st.state, ⟨st, hst, rfl⟩, by simp [herr]⟩
  have hany : (((scenario_stage_status sc).enabledStages).map (·.state)).any
      (fun st => st == EStatus.ERROR) = true := by
    simp only [List.any_eq_true, List.mem_map, beq_iff_eq]
    exact ⟨st.state, ⟨st, hst, rfl⟩, herr⟩
  simp only [hnall, hany, if_false, if_true, Bool.false_eq_true]

lemma scen_running (sc : Scenario)
    (h1 : ¬ ∀ st ∈ (scenario_stage_status sc).enabledStages,
      st.state = EStatus.COMPLETE)
    (h2 : ¬ ∃ st ∈ (scenario_stage_status sc).enabledStages,
      st.state = EStatus.ERROR)
    (h3 : ∃ st ∈ (scenario_stage_status sc).enabledStages,
      st.state = EStatus.PENDING) :
    (scenario_stage_status sc).state = EStatus.RUNNING := by
  rw [scenario_stage_status_state]
  have hnall : (((scenario_stage_status sc).enabledStages).map (·.state)).all
      (fun st => st == EStatus.COMPLETE) = false := by
    rw [List.all_eq_false]
    simp only [List.mem_map, beq_iff_eq]
    push_neg at h1
    obtain ⟨st, hst, hne⟩ := h1
    exact ⟨st.state, ⟨st, hst, rfl⟩, by simpa using hne⟩
  have hnerr : (((scenario_stage_status sc).enabledStages).map (·.state)).any
      (fun st => st == EStatus.ERROR) = false := by
    rw [List.any_eq_false]
    simp only [List.mem_map, beq_iff_eq]
    rintro s ⟨st, hst, rfl⟩
    push_neg at h2
    simpa using h2 st hst
  have hpend : (((scenario_stage_status sc).enabledStages).map (·.state)).any
      (fun st => st == EStatus.PENDING) = true := by
    obtain ⟨st, hst, hp⟩ := h3
    simp only [List.any_eq_true, List.mem_map, beq_iff_eq]
    exact ⟨st.state, ⟨st, hst, rfl⟩, hp⟩
  simp only [hnall, hnerr, hpend, if_false, if_true, Bool.false_eq_true]

/-- C1: `ForecastHandler.scenario_stage_status` sets the seismicity stage's
status to COMPLETE iff every enabled model run under it is COMPLETE and to
ERROR otherwise, and then sets the scenario's status to COMPLETE if every
enabled stage is COMPLETE, to ERROR if any enabled stage is ERROR, and
otherwise to RUNNING if any enabled stage is still PENDING. -/
theorem C1_scenario_stage_status (sc : Scenario) :
    ((scenario_stage_status sc).seismicityStage.state = EStatus.COMPLETE ↔
      ∀ r ∈ sc.seismicityStage.enabledRuns, r.state = EStatus.COMPLETE) ∧
    ((scenario_stage_status sc).seismicityStage.state = EStatus.ERROR ↔
      ¬ ∀ r ∈ sc.seismicityStage.enabledRuns, r.state = EStatus.COMPLETE) ∧
    ((∀ st ∈ (scenario_stage_status sc).enabledStages,
        st.state = EStatus.COMPLETE) →
      (scenario_stage_status sc).state = EStatus.COMPLETE) ∧
    ((∃ st ∈ (scenario_stage_status sc).enabledStages,
        st.state = EStatus.ERROR) →
      (scenario_stage_status sc).state = EStatus.ERROR) ∧
    ((¬ ∀ st ∈ (scenario_stage_status sc).enabledStages,
        st.state = EStatus.COMPLETE) →
      (¬ ∃ st ∈ (scenario_stage_status sc).enabledStages,
        st.state = EStatus.ERROR) →
      (∃ st ∈ (scenario_stage_status sc).enabledStages,
        st.state = EStatus.PENDING) →
      (scenario_stage_status sc).state = EStatus.RUNNING) :=
  ⟨stage_complete_iff sc, stage_error_iff sc, scen_complete sc,
    scen_error sc, scen_running sc⟩

/-- Witness for C1: on `exScenario`, the seismicity stage becomes COMPLETE
and the scenario becomes RUNNING (one enabled stage still PENDING). -/
theorem C1_scenario_stage_status_witness :
    (scenario_stage_status exScenario).seismicityStage.state =
      EStatus.COMPLETE ∧
    (scenario_stage_status exScenario).state = EStatus.RUNNING :=
  ⟨(C1_scenario_stage_status exScenario).1.mpr (by decide),
    (C1_scenario_stage_status exScenario).2.2.2.2
      (by decide) (by decide) (by decide)⟩

lemma scenario_stage_status_stages (sc : Scenario) :
    (scenario_stage_status sc).stages =
      (scenario_stage_status sc).seismicityStage :: sc.otherStages := rfl

lemma enabledStages_update_nil (sc : Scenario) (h : sc.enabledStages = []) :
    (scenario_stage_status sc).enabledStages = [] := by
  rw [Scenario.enabledStages, List.filter_eq_nil_iff] at h ⊢
  rw [scenario_stage_status_stages]
  intro st hst
  rcases List.mem_cons.mp hst with h1 | h2
  · subst h1
    have hs : ¬ (sc.seismicityStage.enabled = true) :=
      h sc.seismicityStage (by simp [Scenario.stages])
    rw [scenario_stage_status_seismicityStage]
    simpa using hs
  · exact h st (by simp [Scenario.stages, h2])

/-- C9: a seismicity stage with zero enabled model runs is set to COMPLETE
(vacuously all-COMPLETE), and a scenario with zero enabled stages is set to
COMPLETE — an empty stage or scenario is never marked ERROR. -/
theorem C9_empty_aggregation_complete (sc : Scenario) :
    (sc.seismicityStage.enabledRuns = [] →
      (scenario_stage_status sc).seismicityStage.state = EStatus.COMPLETE) ∧
    (sc.enabledStages = [] →
      (scenario_stage_status sc).state = EStatus.COMPLETE) := by
  constructor
  · intro h
    exact (stage_complete_iff sc).mpr (by simp [h])
  · intro h
    apply scen_complete
    rw [enabledStages_update_nil sc h]
    simp

/-- Witness for C9: the all-disabled scenario is driven to COMPLETE at both
levels. -/
theorem C9_empty_aggregation_complete_witness :
    (scenario_stage_status exEmptyScenario).seismicityStage.state =
      EStatus.COMPLETE ∧
    (scenario_stage_status exEmptyScenario).state = EStatus.COMPLETE :=
  ⟨(C9_empty_aggregation_complete exEmptyScenario).1 (by decide),
    (C9_empty_aggregation_complete exEmptyScenario).2 (by decide)⟩

lemma simulate_time_step_running (s : Simulator) (a b : ℚ)
    (hext : s.external_signal = false) (hrange : s.time_range = some (a, b))
    (hs : s.state = SimulatorState.RUNNING) :
    s.simulate_time_step =
      (let t := s.simulation_time + s.simulation_interval / 1000 * s.speed
       let s' : Simulator := { s with
         simulation_time := t
         handlerCalls := s.handlerCalls ++ [t] }
       some (if b ≤ t then s'.stop else s')) := by
  simp [Simulator.simulate_time_step, hext, hrange, hs]

lemma tickN_running (N : ℕ) : ∀ (s : Simulator) (a b : ℚ),
    s.simulation_interval = 200 → s.external_signal = false →
    s.time_range = some (a, b) → s.state = SimulatorState.RUNNING →
    0 ≤ s.speed →
    s.simulation_time + (N : ℚ) * ((0.2 : ℚ) * s.speed) < b →
    ∃ s', Simulator.tickN N s = some s' ∧
      s'.simulation_time =
        s.simulation_time + (N : ℚ) * ((0.2 : ℚ) * s.speed) ∧
      s'.state = SimulatorState.RUNNING := by
  induction N with
  | zero =>
    intro s a b _ _ _ hs _ _
    exact ⟨s, rfl, by push_cast; ring_nf, hs⟩
  | succ n ih =>
    intro s a b hint hext hrange hs hsp hlt
    have hdpos : (0 : ℚ) ≤ (0.2 : ℚ) * s.speed := by positivity
    have hdval : s.simulation_interval / 1000 * s.speed =
        (0.2 : ℚ) * s.speed := by rw [hint]; ring
    have hnn : (0 : ℚ) ≤ (n : ℚ) * ((0.2 : ℚ) * s.speed) := by positivity
    have hlt1 : s.simulation_time + (0.2 : ℚ) * s.speed +
        (n : ℚ) * ((0.2 : ℚ) * s.speed) < b := by
      have : s.simulation_time + ((n : ℚ) + 1) * ((0.2 : ℚ) * s.speed) < b := by
        push_cast at hlt; linarith [hlt]
      linarith [this]
    have hnotend : ¬ (b ≤ s.simulation_time + s.simulation_interval / 1000 * s.speed) := by
      rw [hdval]; push_neg; linarith
    rw [show n + 1 = Nat.succ n from rfl]
    have hstep := simulate_time_step_running s a b hext hrange hs
    simp only [Simulator.tickN, hstep]
    simp only [hnotend, if_neg, Option.bind_some]
    set t := s.simulation_time + s.simulation_interval / 1000 * s.speed with ht
    obtain ⟨s', hrun, htime, hstate⟩ :=
      ih { s with simulation_time := t, handlerCalls := s.handlerCalls ++ [t] }
        a b hint hext hrange hs hsp (by simpa [ht, hdval] using hlt1)
    refine ⟨s', by simpa using hrun, ?_, hstate⟩
    rw [htime]
    simp only [ht, hdval]
    push_cast
    ring

/-- C4: for the Simulator in internal-timer mode over `(a, b)`, a tick while
not RUNNING changes nothing; every tick delivered while RUNNING advances
`simulation_time` by exactly `0.2 × speed` seconds and is delivered to the
handler even when it reaches or passes `b` (after which the simulator is
STOPPED, otherwise still RUNNING); and `N` ticks that stay below `b`
advance `simulation_time` by exactly `N × 0.2 × speed` seconds. -/
theorem C4_simulator_tick (s : Simulator) (a b : ℚ) (N : ℕ)
    (hint : s.simulation_interval = 200)
    (hext : s.external_signal = false)
    (hrange : s.time_range = some (a, b)) :
    (s.state ≠ SimulatorState.RUNNING → s.simulate_time_step = some s) ∧
    (s.state = SimulatorState.RUNNING →
      ∃ s', s.simulate_time_step = some s' ∧
        s'.simulation_time = s.simulation_time + (0.2 : ℚ) * s.speed ∧
        s'.handlerCalls =
          s.handlerCalls ++ [s.simulation_time + (0.2 : ℚ) * s.speed] ∧
        (b ≤ s.simulation_time + (0.2 : ℚ) * s.speed →
          s'.state = SimulatorState.STOPPED) ∧
        (s.simulation_time + (0.2 : ℚ) * s.speed < b →
          s'.state = SimulatorState.RUNNING)) ∧
    (s.state = SimulatorState.RUNNING → 0 ≤ s.speed →
      s.simulation_time + (N : ℚ) * ((0.2 : ℚ) * s.speed) < b →
      ∃ s', Simulator.tickN N s = some s' ∧
        s'.simulation_time =
          s.simulation_time + (N : ℚ) * ((0.2 : ℚ) * s.speed) ∧
        s'.state = SimulatorState.RUNNING) := by
  have hdval : s.simulation_interval / 1000 * s.speed =
      (0.2 : ℚ) * s.speed := by rw [hint]; ring
  refine ⟨?_, ?_, fun hs hsp hlt => tickN_running N s a b hint hext hrange hs hsp hlt⟩
  · intro h
    simp [Simulator.simulate_time_step, h]
  · intro hs
    have hstep := simulate_time_step_running s a b hext hrange hs
    set t := s.simulation_time + s.simulation_interval / 1000 * s.speed with ht
    set s1 : Simulator := { s with
      simulation_time := t
      handlerCalls := s.handlerCalls ++ [t] } with hs1
    by_cases hb : b ≤ t
    · refine ⟨s1.stop, ?_, ?_, ?_, ?_, ?_⟩
      · rw [hstep]; simp [hb]
      · simp [Simulator.stop, hext, hs1, ht, hdval]
      · simp [Simulator.stop, hext, hs1, ht, hdval]
      · intro _; simp [Simulator.stop, hext, hs1]
      · intro hlt; exfalso; rw [ht, hdval] at hb; linarith
    · refine ⟨s1, ?_, ?_, ?_, ?_, ?_⟩
      · rw [hstep]; simp [hb]
      · simp [hs1, ht, hdval]
      · simp [hs1, ht, hdval]
      · intro hble; exfalso; rw [ht, hdval] at hb; exact hb hble
      · intro _; simp [hs1, hs]

/-- Witness for C4: three ticks of `exSimRunning` advance simulated time to
exactly `3 × 0.2 × 1 = 0.6`, still RUNNING. -/
theorem C4_simulator_tick_witness :
    ∃ s', Simulator.tickN 3 exSimRunning = some s' ∧
      s'.simulation_time = (0.6 : ℚ) ∧ s'.state = SimulatorState.RUNNING := by
  obtain ⟨s', h1, h2, h3⟩ :=
    (C4_simulator_tick exSimRunning 0 1 3 rfl rfl rfl).2.2 rfl
      (by norm_num [exSimRunning, Simulator.init])
      (by norm_num [exSimRunning, Simulator.init])
  refine ⟨s', h1, ?_, h3⟩
  rw [h2]
  norm_num [exSimRunning, Simulator.init]

lemma pause_fields (s : Simulator) :
    (s.pause).simulation_time = s.simulation_time ∧
    (s.pause).time_range = s.time_range ∧
    (s.pause).state = SimulatorState.PAUSED := by
  by_cases h : s.external_signal <;> simp [Simulator.pause, h]

lemma stop_fields (s : Simulator) :
    (s.stop).simulation_time = s.simulation_time ∧
    (s.stop).time_range = s.time_range ∧
    (s.stop).state = SimulatorState.STOPPED := by
  by_cases h : s.external_signal <;> simp [Simulator.stop, h]

lemma start_of_paused (s : Simulator) (a b : ℚ)
    (hrange : s.time_range = some (a, b))
    (hs : s.state = SimulatorState.PAUSED) :
    ∃ s', s.start = some s' ∧ s'.simulation_time = s.simulation_time ∧
      s'.state = SimulatorState.RUNNING := by
  by_cases hext : s.external_signal <;>
    simp [Simulator.start, hrange, hs, hext]

lemma start_of_not_paused (s : Simulator) (a b : ℚ)
    (hrange : s.time_range = some (a, b))
    (hs : s.state ≠ SimulatorState.PAUSED) :
    ∃ s', s.start = some s' ∧ s'.simulation_time = a ∧
      s'.state = SimulatorState.RUNNING := by
  by_cases hext : s.external_signal <;>
    simp [Simulator.start, hrange, hs, hext]

/-- C6: for any configured simulator, `pause()` then `start()` resumes from
exactly the `simulation_time` current at the pause, whereas `stop()` then
`start()` resets `simulation_time` to the configured window start. -/
theorem C6_pause_resume_stop_reset (s : Simulator) (a b : ℚ)
    (hrange : s.time_range = some (a, b)) :
    (∃ s', (s.pause).start = some s' ∧
      s'.simulation_time = s.simulation_time ∧
      s'.state = SimulatorState.RUNNING) ∧
    (∃ s'', (s.stop).start = some s'' ∧
      s''.simulation_time = a ∧
      s''.state = SimulatorState.RUNNING) := by
  obtain ⟨hpt, hpr, hps⟩ := pause_fields s
  obtain ⟨hst, hsr, hss⟩ := stop_fields s
  constructor
  · obtain ⟨s', h1, h2, h3⟩ :=
      start_of_paused (s.pause) a b (by rw [hpr, hrange]) hps
    exact ⟨s', h1, by rw [h2, hpt], h3⟩
  · obtain ⟨s'', h1, h2, h3⟩ :=
      start_of_not_paused (s.stop) a b (by rw [hsr, hrange]) (by simp [hss])
    exact ⟨s'', h1, h2, h3⟩

/-- Witness for C6: on a concrete simulator mid-run at time `2/5`,
pause-then-start resumes at `2/5` while stop-then-start resets to `0`. -/
theorem C6_pause_resume_stop_reset_witness :
    (∃ s', (({ exSimRunning with
        simulation_time := (2/5 : ℚ) } : Simulator).pause).start = some s' ∧
      s'.simulation_time = (2/5 : ℚ) ∧ s'.state = SimulatorState.RUNNING) ∧
    (∃ s'', (({ exSimRunning with
        simulation_time := (2/5 : ℚ) } : Simulator).stop).start = some s'' ∧
      s''.simulation_time = (0 : ℚ) ∧ s''.state = SimulatorState.RUNNING) :=
  C6_pause_resume_stop_reset
    { exSimRunning with simulation_time := (2/5 : ℚ) } 0 1 rfl

lemma workerWait_spec (isReserved : ℕ → Bool) :
    ∀ (r k : ℕ),
      (∃ n, k ≤ n ∧ n ≤ k + r ∧
        workerWait isReserved k r = WaitOutcome.free n ∧
        isReserved n = false) ∨
      (workerWait isReserved k r = WaitOutcome.timedOut (k + r + 1)) := by
  intro r
  induction r with
  | zero =>
    intro k
    by_cases h : isReserved k
    · right; simp [workerWait, h]
    · left
      exact ⟨k, le_refl k, by omega, by simp [workerWait, h],
        by simpa using h⟩
  | succ r' ih =>
    intro k
    by_cases h : isReserved k
    · rcases ih (k + 1) with ⟨n, h1, h2, h3, h4⟩ | h1
      · left
        refine ⟨n, by omega, by omega, ?_, h4⟩
        rw [workerWait]
        simpa [h] using h3
      · right
        rw [workerWait]
        simp only [h, if_true]
        rw [h1]
        congr 1
        omega
    · left
      exact ⟨k, le_refl k, by omega, by simp [workerWait, h],
        by simpa using h⟩

/-- C5 counterexample: with a token that stays reserved forever, the wait
loop performs `workerTimeout + 1 = 1001` one-second sleep iterations before
raising, strictly more than the configured `timeout` (1000) iterations the
claim allows — the wait does continue past that bound. -/
theorem C5_worker_wait_counterexample :
    (workerWait (fun _ => true) 0 workerTimeout).sleeps = workerTimeout + 1 ∧
    ¬ (workerWait (fun _ => true) 0 workerTimeout).sleeps ≤ workerTimeout := by
  set_option maxRecDepth 4000 in decide

/-- C5 amended: `Worker.run` with a reserved `synchronous_thread` token
sleeps one second per iteration for at most `timeout + 1 = 1001`
iterations: either the token is observed unreserved at one of the first
`timeout + 1` polls — after which the Worker reserves it, runs the
callback and releases it — or the wait raises `TimeoutError` after exactly
`timeout + 1` sleeps; it never continues past `timeout + 1` iterations. -/
theorem C5_worker_run_amended (isReserved : ℕ → Bool) :
    (∃ n, n ≤ workerTimeout ∧
      workerWait isReserved 0 workerTimeout = WaitOutcome.free n ∧
      isReserved n = false ∧
      workerRun (some isReserved) =
        Except.ok [WorkerEvent.reserve, WorkerEvent.callback,
          WorkerEvent.release]) ∨
    (workerWait isReserved 0 workerTimeout =
        WaitOutcome.timedOut (workerTimeout + 1) ∧
      workerRun (some isReserved) = Except.error (workerTimeout + 1)) := by
  rcases workerWait_spec isReserved workerTimeout 0 with ⟨n, _, h2, h3, h4⟩ | h1
  · left
    exact ⟨n, by omega, h3, h4, by simp [workerRun, h3]⟩
  · right
    refine ⟨by simpa using h1, ?_⟩
    simp [workerRun, h1]

/-- C3 (code evaluation): every background run of either data source
raises `AttributeError` on `self._url` while evaluating the debug-log
f-string — before the `try` block — and therefore emits no `data_received`
notification at all, contradicting the exactly-one-notification claim. -/
theorem C3_run_raises_attribute_error (url : String) (world : FetchOutcome) :
    dataSource_run (FDSNWSDataSource_init url) world =
      (RunResult.attributeError "_url", []) ∧
    dataSource_run (HYDWSDataSource_init url) world =
      (RunResult.attributeError "_url", []) :=
  ⟨rfl, rfl⟩

/-- C10: a `fetch(**kwargs)` on a disabled data source only records the
query arguments: no background thread is started, no HTTP request is
issued, no `data_received` notification is emitted (not even an empty
one), and all other instance state is unchanged. -/
theorem C10_fetch_disabled_noop (s : DataSourceState)
    (kwargs : List (String × String)) (world : FetchOutcome)
    (h : s.enabled = false) :
    dataSource_fetch s kwargs world =
      { state := { s with args := kwargs }, threadStarted := false,
        events := [], runResult := none } := by
  simp [dataSource_fetch, h]

/-- Witness for C10: a freshly built (hence disabled) FDSNWS source. -/
theorem C10_fetch_disabled_noop_witness :
    dataSource_fetch (FDSNWSDataSource_init "http://example.org/fdsnws")
        [("starttime", "2015-01-01")] FetchOutcome.success =
      { state := { FDSNWSDataSource_init "http://example.org/fdsnws" with
          args := [("starttime", "2015-01-01")] }
        threadStarted := false, events := [], runResult := none } :=
  C10_fetch_disabled_noop (FDSNWSDataSource_init "http://example.org/fdsnws")
    [("starttime", "2015-01-01")] FetchOutcome.success rfl

lemma disconnect_clears (c : ControllerState) :
    (c.disconnect).store = none ∧ (c.disconnect).project = none := by
  unfold ControllerState.disconnect
  rcases hs : c.store with _ | s <;> rcases hp : c.project with _ | p <;>
    simp [ControllerState.close_project, hs, hp]

/-- C8: `Controller.connect(db_url)` is not atomic on failure — it always
disconnects the current store (closing any open project) first, so when
the connection test fails it returns `false` with no store and no project
left, rather than keeping the previous connection. -/
theorem C8_connect_not_atomic (connectable : String → Bool)
    (c : ControllerState) (db_url : String)
    (h : connectable db_url = false) :
    (c.connect connectable db_url).2 = false ∧
    (c.connect connectable db_url).1.store = none ∧
    (c.connect connectable db_url).1.project = none := by
  obtain ⟨h1, h2⟩ := disconnect_clears c
  refine ⟨?_, ?_, ?_⟩ <;> simp [ControllerState.connect, h, h1, h2]

/-- Witness for C8: a controller with a live store and an open project,
against an unreachable database: the old connection and project are gone. -/
theorem C8_connect_not_atomic_witness :
    ((ControllerState.connect (fun _ => false)
        { store := some "postgresql://old", project := some "basel"
          storeChangedEmits := 0, projectClosedEmits := 0 }
        "postgresql://new").2 = false) ∧
    ((ControllerState.connect (fun _ => false)
        { store := some "postgresql://old", project := some "basel"
          storeChangedEmits := 0, projectClosedEmits := 0 }
        "postgresql://new").1.store = none) ∧
    ((ControllerState.connect (fun _ => false)
        { store := some "postgresql://old", project := some "basel"
          storeChangedEmits := 0, projectClosedEmits := 0 }
        "postgresql://new").1.project = none) :=
  C8_connect_not_atomic (fun _ => false)
    { store := some "postgresql://old", project := some "basel"
      storeChangedEmits := 0, projectClosedEmits := 0 }
    "postgresql://new" rfl

/-- C2 (code evaluation): with catalog snapshot `10` already in the
session and well snapshot `20` not in it, `add_well` skips the write even
though the forecast owns no well snapshot in the session; conversely with
well snapshot `20` in the session but catalog snapshot `10` absent,
`add_well` adds a second copy of the well snapshot — its no-op decision is
based on the catalog snapshot, not the well snapshot.  (`add_catalog`
itself behaves as claimed.) -/
theorem C2_add_well_wrong_guard :
    ((20 : ℕ) ∉ ([10] : List ℕ) ∧
      add_well [10] ⟨1, [10], [20]⟩ =
        Except.ok (SnapshotAction.skipped, [10])) ∧
    ((20 : ℕ) ∈ ([20] : List ℕ) ∧
      add_well [20] ⟨1, [10], [20]⟩ =
        Except.ok (SnapshotAction.wrote, [20, 20])) ∧
    add_catalog [] ⟨1, [10], [20]⟩ =
      Except.ok (SnapshotAction.wrote, [10]) ∧
    add_catalog [10] ⟨1, [10], [20]⟩ =
      Except.ok (SnapshotAction.skipped, [10]) := by
  exact ⟨⟨by decide, rfl⟩, ⟨by decide, rfl⟩, rfl, rfl⟩

/-- C7 (code evaluation): constructing the serializer with no local
projection (`proj=None`, exactly as `test_no_proj` does) raises
`SFMWIOError` instead of succeeding, so the no-projection serialization
path asserted by the claim (and by the repository's own
`SFMWorkerIMessageSerializerTestCase.test_no_proj`) is unreachable. -/
theorem C7_init_raises_on_missing_proj :
    SFMWorkerIMessageSerializer_init none =
      Except.error "Missing SRS (PROJ4) projection." := rfl


end RAMSIS
